import Mathlib

/-!
Shallow embedding of the CTF flag bot (src/botospere.py).

The bot is a collection of Telegram command handlers backed by four MongoDB
collections (users, flags, submissions, admins).  Each handler is modelled as
a pure function from the database state (plus its inputs) to a new database
state together with an abstract reply.  MongoDB point operations are modelled
on lists of records:

* `find_one({"_id": k})` / `find_one({"username": k})` becomes `List.find?`
  on the first matching record (Mongo `_id` is unique, and the bot only ever
  stores string usernames in `admins`);
* `update_one(filter, {"$set"/"$inc": ...})` without `upsert` becomes an
  update of the first matching record (`update_one_user`), a no-op when no
  record matches;
* `update_one(..., upsert=True)` becomes update-first-match-or-append
  (`upsert_challenge`);
* `insert_one` appends; `delete_many` / `delete_one` filter records out;
* `sort` becomes `List.insertionSort` with the corresponding comparator.  In
  BSON order `null`/missing sorts below any `Date`, so an ascending sort on
  `last_correct_submission` places users without the field first; this is
  captured by `opt_ts_le`.

Python string primitives (`str.strip`, `int(...)`, `str.lstrip("@")`,
`" ".join(...)`) are modelled by executable structural-recursion functions
on the character list (`pyStrip`, `pyInt?`, `pyLstripAt`, `pyJoin`).

Python `None` values (absent Telegram username, absent `user_data` keys,
unset `ADMIN_USERNAME` environment variable) are modelled as `Option`;
a Python operation that would raise (`None.get`, a `KeyError`) is modelled
as `Except.error` / `Option.none` on the result.
-/

namespace CTFBot

/-- A document of the `flags` collection: `_id` (the challenge name),
`flag`, `points`, `post_link`. -/
structure Challenge where
  id : String
  flag : String
  points : Int
  post_link : String
deriving Repr, DecidableEq

/-- A document of the `users` collection: numeric Telegram `_id`,
optional `username`, `points`, optional `last_correct_submission`
timestamp (timestamps are modelled as naturals). -/
structure UserR where
  id : Nat
  username : Option String
  points : Int
  last_correct_submission : Option Nat
deriving Repr, DecidableEq

/-- A document of the `submissions` collection.  The `challenge` field is
whatever `context.user_data.get("challenge")` held, hence an `Option`. -/
structure Submission where
  user_id : Nat
  challenge : Option String
  submitted_flag : String
  correct : Bool
  timestamp : Nat
deriving Repr, DecidableEq

/-- The four collections.  `admins` documents carry a single string
`username` field, so the collection is a list of usernames. -/
structure DB where
  users : List UserR
  flags : List Challenge
  submissions : List Submission
  admins : List String
deriving Repr, DecidableEq

/-- Conversation states (`ConversationHandler.END` and the `range(6)`
constants used by the authoring flow). -/
inductive ConvState where
  | END
  | SELECT_CHALLENGE
  | WAIT_FLAG
  | AF_NAME
  | AF_POINTS
  | AF_LINK
  | AF_FLAG
deriving Repr, DecidableEq

/-- Abstract replies sent back to the chat, one constructor per distinct
message the modelled handlers can produce. -/
inductive Reply where
  | unauthorized
  | usageDelete
  | usageAddAdmin
  | challengeMissing (name : String)
  | deleted (name : String)
  | adminAdded (name : String)
  | promptName
  | promptPoints
  | invalidInt
  | promptLink
  | promptFlag
  | challengeAdded (name : String) (pts : Int)
  | challengeNotFound
  | correctMsg (chal : Option String) (pts : Int)
  | incorrectMsg (chal : Option String)
  | usersList (items : List (Nat × Option String))
  | submissionsLog (rows : List Submission)
deriving Repr, DecidableEq

/-- Per-user `context.user_data` mapping, with one `Option` field per key the
source stores there. -/
structure UserData where
  challenge : Option String
  af_name : Option String
  af_points : Option Int
  af_link : Option String
deriving Repr, DecidableEq

/-- Python `str.strip()`: remove leading and trailing whitespace. -/
def pyStrip (s : String) : String :=
  ⟨(((s.data.dropWhile Char.isWhitespace).reverse).dropWhile Char.isWhitespace).reverse⟩

/-- Python `str.lstrip("@")`: remove every leading `@`. -/
def pyLstripAt (s : String) : String :=
  ⟨s.data.dropWhile (· == '@')⟩

/-- Python `sep.join(parts)`. -/
def pyJoin (sep : String) : List String → String
  | [] => ""
  | [a] => a
  | a :: rest => a ++ sep ++ pyJoin sep rest

/-- Numeric value of a decimal digit string. -/
def digitsVal (cs : List Char) : Nat :=
  cs.foldl (fun acc c => acc * 10 + (c.toNat - 48)) 0

/-- Python `int(s)`: optional sign followed by decimal digits, surrounding
whitespace ignored; `none` models the `ValueError` (underscore separators
and non-ASCII digits are not modelled). -/
def pyInt? (s : String) : Option Int :=
  match (pyStrip s).data with
  | [] => none
  | c :: rest =>
    if c == '-' then
      (if !rest.isEmpty && rest.all Char.isDigit then some (-(digitsVal rest : Int)) else none)
    else if c == '+' then
      (if !rest.isEmpty && rest.all Char.isDigit then some ((digitsVal rest : Int)) else none)
    else
      (if (c :: rest).all Char.isDigit then some ((digitsVal (c :: rest) : Int)) else none)

/-- is_admin (line 60): `username == ADMIN_USERNAME or
bool(admins.find_one({"username": username}))`.  `ADMIN_USERNAME` comes from
`os.getenv` and may be `None`; the Telegram username may be `None`.  A Mongo
query `{"username": v}` matches a document whose stored (string) username
equals `v`. -/
def is_admin (adminUsername : Option String) (adminsColl : List String)
    (username : Option String) : Bool :=
  username == adminUsername || (adminsColl.find? (fun a => some a == username)).isSome

/-- users.update_one({"_id": uid}, ...) without upsert: apply `f` to the
first record whose `_id` matches, no-op when none matches. -/
def update_one_user (us : List UserR) (uid : Nat) (f : UserR → UserR) : List UserR :=
  match us with
  | [] => []
  | u :: rest => if u.id == uid then f u :: rest else u :: update_one_user rest uid f

/-- flags.update_one({"_id": name}, {"$set": {...}}, upsert=True): replace the
`flag`, `points`, `post_link` fields of the first record with that `_id`, or
insert a fresh record when none exists. -/
def upsert_challenge (fs : List Challenge) (name flagStr : String) (pts : Int)
    (link : String) : List Challenge :=
  match fs with
  | [] => [⟨name, flagStr, pts, link⟩]
  | c :: rest =>
    if c.id == name then { c with flag := flagStr, points := pts, post_link := link } :: rest
    else c :: upsert_challenge rest name flagStr pts link

/-- get_unsolved_challenges (line 72): all `flags` ids minus the `challenge`
values of this user's correct submissions. -/
def get_unsolved_challenges (db : DB) (uid : Nat) : List String :=
  let all_chals := db.flags.map (·.id)
  let solved := (db.submissions.filter (fun s => s.user_id == uid && s.correct)).map (·.challenge)
  all_chals.filter (fun ch => ! solved.contains (some ch))

/-- details_challenge (line 170): `doc = flags.find_one({"_id": name})`;
when the challenge is absent `doc` is `None` and the following
`doc.get("points", 0)` is an attribute access on `None`, which raises
`AttributeError` — modelled as `Except.error`.  Otherwise the rendered card
data `(name, points, link)` is returned. -/
def details_challenge (db : DB) (name : String) :
    Except String (String × Int × String) :=
  match db.flags.find? (fun c => c.id == name) with
  | none => .error "AttributeError"
  | some doc => .ok (name, doc.points, doc.post_link)

/-- receive_flag (line 208): look up `user_data.get("challenge")` in `flags`;
absent challenge replies not-found and ends; otherwise record a submission
row with the comparison outcome, and on a correct flag increment the user's
points and stamp `last_correct_submission`. -/
def receive_flag (db : DB) (uid : Nat) (chal : Option String) (text : String)
    (now : Nat) : DB × ConvState × Reply :=
  let flag_text := pyStrip text
  match db.flags.find? (fun c => some c.id == chal) with
  | none => (db, .END, .challengeNotFound)
  | some doc =>
    let correct := flag_text == doc.flag
    let pts := doc.points
    let db1 := { db with
      submissions := db.submissions ++ [⟨uid, chal, flag_text, correct, now⟩] }
    if correct then
      ({ db1 with users := (update_one_user db1.users uid
          (fun u => { u with points := u.points + pts,
                             last_correct_submission := some now })) },
       .END, .correctMsg chal pts)
    else
      (db1, .END, .incorrectMsg chal)

/-- BSON ascending order on an optional timestamp: a missing/null field sorts
below every `Date` value. -/
def opt_ts_le : Option Nat → Option Nat → Bool
  | none, _ => true
  | some _, none => false
  | some a, some b => a ≤ b

/-- Comparator of `users.find().sort([("points", -1),
("last_correct_submission", 1)])` (line 261): points descending, then
timestamp ascending with missing timestamps first. -/
def lb_le (a b : UserR) : Bool :=
  decide (b.points < a.points) ||
    (a.points == b.points && opt_ts_le a.last_correct_submission b.last_correct_submission)

/-- leaderboard_start (line 260): the list of users in rendered order. -/
def leaderboard_start (db : DB) : List UserR :=
  List.insertionSort (fun a b => lb_le a b = true) db.users

/-- viewusers_start (line 312): admin-gated, read-only listing of `_id` and
username of every user. -/
def viewusers_start (adminU : Option String) (db : DB) (invoker : Option String) :
    DB × Reply :=
  if !(is_admin adminU db.admins invoker) then (db, .unauthorized)
  else (db, .usersList (db.users.map (fun u => (u.id, u.username))))

/-- viewsubmissions (line 335): admin-gated, read-only log of submissions
sorted by timestamp descending. -/
def viewsubmissions (adminU : Option String) (db : DB) (invoker : Option String) :
    DB × Reply :=
  if !(is_admin adminU db.admins invoker) then (db, .unauthorized)
  else (db, .submissionsLog (List.insertionSort
    (fun a b : Submission => b.timestamp ≤ a.timestamp) db.submissions))

/-- addnewadmins (line 359): gate, arity check, then upsert the new admin
username with every leading `@` stripped (`lstrip("@")`). -/
def addnewadmins (adminU : Option String) (db : DB) (invoker : Option String)
    (args : List String) : DB × Reply :=
  if !(is_admin adminU db.admins invoker) then (db, .unauthorized)
  else if args.length != 1 then (db, .usageAddAdmin)
  else
    let new_admin := pyLstripAt (args.headD "")
    let admins1 :=
      if (db.admins.find? (fun a => a == new_admin)).isSome then db.admins
      else db.admins ++ [new_admin]
    ({ db with admins := admins1 }, .adminAdded new_admin)

/-- addflag_start (line 371): the authoring-flow entry; rejected invocations
end the conversation without reaching `AF_NAME`. -/
def addflag_start (adminU : Option String) (db : DB) (invoker : Option String) :
    DB × ConvState × Reply :=
  if !(is_admin adminU db.admins invoker) then (db, .END, .unauthorized)
  else (db, .AF_NAME, .promptName)

/-- af_name (line 379): store the trimmed candidate name, advance. -/
def af_name (ud : UserData) (text : String) : UserData × ConvState × Reply :=
  ({ ud with af_name := some (pyStrip text) }, .AF_POINTS, .promptPoints)

/-- af_points (line 384): parse the trimmed text as an integer; on failure
reply with a format error and stay in `AF_POINTS`, otherwise store it and
advance to `AF_LINK`. -/
def af_points (ud : UserData) (text : String) : UserData × ConvState × Reply :=
  match pyInt? (pyStrip text) with
  | none => (ud, .AF_POINTS, .invalidInt)
  | some n => ({ ud with af_points := some n }, .AF_LINK, .promptLink)

/-- af_link (line 393): store the trimmed link, advance. -/
def af_link (ud : UserData) (text : String) : UserData × ConvState × Reply :=
  ({ ud with af_link := some (pyStrip text) }, .AF_FLAG, .promptFlag)

/-- af_flag (line 398): read the stored name/points/link (a missing key is a
Python `KeyError`, modelled as `none`), then upsert the challenge. -/
def af_flag (db : DB) (ud : UserData) (text : String) :
    Option (DB × ConvState × Reply) :=
  match ud.af_name, ud.af_points, ud.af_link with
  | some name, some pts, some link =>
    let flag_str := pyStrip text
    some ({ db with flags := upsert_challenge db.flags name flag_str pts link },
          .END, .challengeAdded name pts)
  | _, _, _ => none

/-- One complete pass of the authoring conversation: `/addflag` then the four
text messages, chaining the four handlers; `none` when the gate rejects the
invoker or the points message fails to parse (the flow then does not complete
on these four inputs). -/
def authoring_run (adminU : Option String) (db : DB) (invoker : Option String)
    (ud : UserData) (nameIn ptsIn linkIn flagIn : String) : Option DB :=
  let gate := addflag_start adminU db invoker
  if gate.2.1 == ConvState.AF_NAME then
    let ud1 := (af_name ud nameIn).1
    let step2 := af_points ud1 ptsIn
    if step2.2.1 == ConvState.AF_LINK then
      let ud3 := (af_link step2.1 linkIn).1
      (af_flag db ud3 flagIn).map (·.1)
    else none
  else none

/-- delete_challenge (line 411): gate, argument check, existence check; then
for every correct submission row of the challenge decrement that row's user
by the challenge's points, delete all its submission rows, delete the
challenge. -/
def delete_challenge (adminU : Option String) (db : DB) (invoker : Option String)
    (args : List String) : DB × Reply :=
  if !(is_admin adminU db.admins invoker) then (db, .unauthorized)
  else if args.isEmpty then (db, .usageDelete)
  else
    let name := pyStrip (pyJoin " " args)
    match db.flags.find? (fun c => c.id == name) with
    | none => (db, .challengeMissing name)
    | some doc =>
      let pts := doc.points
      let correctSubs := db.submissions.filter
        (fun s => s.challenge == some name && s.correct)
      let users1 := correctSubs.foldl
        (fun us s => update_one_user us s.user_id
          (fun u => { u with points := u.points - pts })) db.users
      ({ users := users1,
         flags := db.flags.filter (fun c => !(c.id == name)),
         submissions := db.submissions.filter (fun s => !(s.challenge == some name)),
         admins := db.admins },
       .deleted name)

/-! ## Theorems -/

/-- Claim C3 as stated is false at one configuration: when the super-admin
handle is itself unconfigured (the `ADMIN_USERNAME` environment variable
absent, hence `None`), `is_admin` applied to an absent handle compares
`None == None` and returns true. -/
theorem C3_null_admin_counterexample : is_admin none [] none = true := rfl

/-- Claim C3 (amended): for every configuration in which the super-admin
handle is actually configured (a string), and every content of the Admin
collection, `is_admin` applied to an absent/null handle returns false. -/
theorem C3_null_handle_not_admin (a : String) (adminsColl : List String) :
    is_admin (some a) adminsColl none = false := by
  unfold is_admin
  have h : adminsColl.find? (fun x => some x == (none : Option String)) = none :=
    List.find?_eq_none.mpr (fun x _ => by simp)
  simp [h]

/-- Claim C6: rendering the challenge detail view for a deleted challenge
raises an unhandled error.  `flags.find_one` returns `None` and the code
immediately evaluates `doc.get("points", 0)`, an attribute access on `None`
(`AttributeError`); it neither renders a points=0/link-empty card nor an
explicit not-found reply.  Evaluation at the failing input (empty challenge
collection, name "web1"). -/
theorem C6_detail_view_raises :
    details_challenge ⟨[], [], [], []⟩ "web1" = Except.error "AttributeError" := rfl

/-- Claim C10: a non-command text message from a user whose working-context
challenge key is absent (`user_data.get("challenge")` is `None`) is handled
by the globally registered flag handler: the lookup of the null challenge
finds nothing, the user gets the "Challenge not found" reply, and the
database is left completely unchanged. -/
theorem C10_no_context_flag_text (db : DB) (uid : Nat) (text : String) (now : Nat) :
    receive_flag db uid none text now = (db, ConvState.END, Reply.challengeNotFound) := by
  unfold receive_flag
  have h : db.flags.find? (fun c => some c.id == (none : Option String)) = none :=
    List.find?_eq_none.mpr (fun c _ => by simp)
  rw [h]

/-- Claim C8: in the `AF_POINTS` state, an input whose stripped text does not
parse as an integer produces the format-error reply and leaves the flow in
`AF_POINTS` with `user_data` (in particular the stored candidate name)
untouched; an input that does parse stores the integer and advances to
`AF_LINK`, changing no other `user_data` field. -/
theorem C8_af_points_retry_policy (ud : UserData) (text : String) :
    (pyInt? (pyStrip text) = none →
      af_points ud text = (ud, ConvState.AF_POINTS, Reply.invalidInt)) ∧
    (∀ n : Int, pyInt? (pyStrip text) = some n →
      af_points ud text = ({ ud with af_points := some n },
        ConvState.AF_LINK, Reply.promptLink)) := by
  constructor
  · intro h
    unfold af_points
    rw [h]
  · intro n h
    unfold af_points
    rw [h]

/-- Witness for C8 at concrete inputs: the non-integer message "abc" leaves
the state (and the stored name "web1") in place; the message " 42 " stores 42
and advances. -/
theorem C8_af_points_retry_policy_witness :
    af_points ⟨none, some "web1", none, none⟩ "abc" =
      (⟨none, some "web1", none, none⟩, ConvState.AF_POINTS, Reply.invalidInt) ∧
    af_points ⟨none, some "web1", none, none⟩ " 42 " =
      (⟨none, some "web1", some 42, none⟩, ConvState.AF_LINK, Reply.promptLink) :=
  ⟨(C8_af_points_retry_policy ⟨none, some "web1", none, none⟩ "abc").1 (by decide),
   (C8_af_points_retry_policy ⟨none, some "web1", none, none⟩ " 42 ").2 42 (by decide)⟩

/-- Claim C5: the unsolved set computed at `/submit` entry is exactly the set
of all challenge names minus those the user has at least one correct
submission for; a challenge with only incorrect submissions stays in the
set, one with a correct submission never is. -/
theorem C5_unsolved_set_correct (db : DB) (uid : Nat) (ch : String) :
    ch ∈ get_unsolved_challenges db uid ↔
      (ch ∈ db.flags.map (fun c => c.id) ∧
        ¬ ∃ s ∈ db.submissions, s.user_id = uid ∧ s.correct = true ∧
            s.challenge = some ch) := by
  unfold get_unsolved_challenges
  simp [List.mem_filter, List.mem_map, List.any_eq_true]

/-- Claim C7: a flag submission whose stripped text differs from the looked-up
challenge's secret flag appends exactly one submission row with
`correct = false` and the current timestamp, and leaves the users, flags and
admins collections unchanged (no point or timestamp update). -/
theorem C7_wrong_flag_frame (db : DB) (uid : Nat) (chal : Option String)
    (text : String) (now : Nat) (doc : Challenge)
    (hfind : db.flags.find? (fun c => some c.id == chal) = some doc)
    (hne : pyStrip text ≠ doc.flag) :
    receive_flag db uid chal text now =
      ({ db with submissions :=
          db.submissions ++ [⟨uid, chal, pyStrip text, false, now⟩] },
       ConvState.END, Reply.incorrectMsg chal) := by
  have hco : (pyStrip text == doc.flag) = false := beq_eq_false_iff_ne.mpr hne
  unfold receive_flag
  rw [hfind]
  simp only [hco]
  rfl

/-- Witness for C7: user 1 submits "wrong" for challenge "c" whose flag is
"f"; one incorrect row is recorded and nothing else changes. -/
theorem C7_wrong_flag_frame_witness :
    receive_flag ⟨[⟨1, some "u", 0, none⟩], [⟨"c", "f", 5, "L"⟩], [], []⟩
        1 (some "c") "wrong" 9 =
      (⟨[⟨1, some "u", 0, none⟩], [⟨"c", "f", 5, "L"⟩],
        [⟨1, some "c", "wrong", false, 9⟩], []⟩,
       ConvState.END, Reply.incorrectMsg (some "c")) :=
  C7_wrong_flag_frame ⟨[⟨1, some "u", 0, none⟩], [⟨"c", "f", 5, "L"⟩], [], []⟩
    1 (some "c") "wrong" 9 ⟨"c", "f", 5, "L"⟩ (by decide) (by decide)

/-- Claim C2: each admin-gated handler (delete challenge, add admin, start
challenge authoring, view users, view submissions), invoked by a handle that
`is_admin` rejects, replies with the rejection and leaves the whole database
(challenges, submissions, admins — indeed every collection) unchanged. -/
theorem C2_admin_gate (adminU : Option String) (db : DB) (invoker : Option String)
    (args args1 : List String)
    (h : is_admin adminU db.admins invoker = false) :
    delete_challenge adminU db invoker args = (db, Reply.unauthorized) ∧
    addnewadmins adminU db invoker args1 = (db, Reply.unauthorized) ∧
    addflag_start adminU db invoker = (db, ConvState.END, Reply.unauthorized) ∧
    viewusers_start adminU db invoker = (db, Reply.unauthorized) ∧
    viewsubmissions adminU db invoker = (db, Reply.unauthorized) := by
  refine ⟨?_, ?_, ?_, ?_, ?_⟩ <;>
    simp [delete_challenge, addnewadmins, addflag_start, viewusers_start,
      viewsubmissions, h]

/-- Witness for C2: non-admin "eve" (super-admin is "root", allow-list empty)
is rejected by all five handlers and the database is untouched. -/
theorem C2_admin_gate_witness :
    delete_challenge (some "root") ⟨[], [⟨"c", "f", 5, "L"⟩], [], []⟩
        (some "eve") ["c"] =
      (⟨[], [⟨"c", "f", 5, "L"⟩], [], []⟩, Reply.unauthorized) ∧
    addnewadmins (some "root") ⟨[], [⟨"c", "f", 5, "L"⟩], [], []⟩
        (some "eve") ["mallory"] =
      (⟨[], [⟨"c", "f", 5, "L"⟩], [], []⟩, Reply.unauthorized) ∧
    addflag_start (some "root") ⟨[], [⟨"c", "f", 5, "L"⟩], [], []⟩ (some "eve") =
      (⟨[], [⟨"c", "f", 5, "L"⟩], [], []⟩, ConvState.END, Reply.unauthorized) ∧
    viewusers_start (some "root") ⟨[], [⟨"c", "f", 5, "L"⟩], [], []⟩ (some "eve") =
      (⟨[], [⟨"c", "f", 5, "L"⟩], [], []⟩, Reply.unauthorized) ∧
    viewsubmissions (some "root") ⟨[], [⟨"c", "f", 5, "L"⟩], [], []⟩ (some "eve") =
      (⟨[], [⟨"c", "f", 5, "L"⟩], [], []⟩, Reply.unauthorized) :=
  C2_admin_gate (some "root") ⟨[], [⟨"c", "f", 5, "L"⟩], [], []⟩ (some "eve")
    ["c"] ["mallory"] (by decide)

theorem lb_le_iff (a b : UserR) :
    lb_le a b = true ↔
      (b.points < a.points ∨
        (a.points = b.points ∧
          opt_ts_le a.last_correct_submission b.last_correct_submission = true)) := by
  unfold lb_le
  simp

theorem opt_ts_le_trans (x y z : Option Nat) :
    opt_ts_le x y = true → opt_ts_le y z = true → opt_ts_le x z = true := by
  cases x <;> cases y <;> cases z <;> (simp [opt_ts_le]; try omega)

theorem opt_ts_le_total (x y : Option Nat) :
    opt_ts_le x y = true ∨ opt_ts_le y x = true := by
  cases x <;> cases y <;> (simp [opt_ts_le]; try omega)

theorem lb_le_trans (a b c : UserR) :
    lb_le a b = true → lb_le b c = true → lb_le a c = true := by
  simp only [lb_le_iff]
  rintro (h1 | ⟨e1, t1⟩) (h2 | ⟨e2, t2⟩)
  · exact Or.inl (by omega)
  · exact Or.inl (by omega)
  · exact Or.inl (by omega)
  · exact Or.inr ⟨by omega, opt_ts_le_trans _ _ _ t1 t2⟩

theorem lb_le_total (a b : UserR) :
    lb_le a b = true ∨ lb_le b a = true := by
  simp only [lb_le_iff]
  rcases lt_trichotomy a.points b.points with h | h | h
  · exact Or.inr (Or.inl h)
  · rcases opt_ts_le_total a.last_correct_submission b.last_correct_submission with t | t
    · exact Or.inl (Or.inr ⟨h, t⟩)
    · exact Or.inr (Or.inr ⟨h.symm, t⟩)
  · exact Or.inl (Or.inl h)

/-- Claim C4 as stated is false at a concrete input: two users with equal
points, where user 1 has no recorded `last_correct_submission` and user 2 has
one.  The Mongo ascending sort places the missing timestamp FIRST (BSON null
sorts below any date), so the user with no correct submission ranks strictly
ABOVE the user with a recorded timestamp, contradicting the claimed
at-or-below ranking. -/
theorem C4_missing_ts_counterexample :
    leaderboard_start ⟨[⟨2, some "b", 5, some 10⟩, ⟨1, some "a", 5, none⟩],
        [], [], []⟩ =
      [⟨1, some "a", 5, none⟩, ⟨2, some "b", 5, some 10⟩] := by decide

/-- Claim C4 (amended): in the leaderboard listing, every earlier user A and
later user B satisfy: A has more points than B, or equal points with A's
last-correct-submission key at or below B's, where a MISSING timestamp is
treated as minimal — a user with no recorded correct submission ranks at or
above every user with equal points and a recorded timestamp.  (The claim's
strictly-more-points and equal-points-earlier-timestamp parts hold
unchanged.) -/
theorem C4_leaderboard_order (db : DB) :
    (leaderboard_start db).Pairwise
      (fun a b => b.points < a.points ∨
        (a.points = b.points ∧
          opt_ts_le a.last_correct_submission b.last_correct_submission = true)) := by
  haveI : IsTrans UserR (fun a b => lb_le a b = true) := ⟨lb_le_trans⟩
  haveI : IsTotal UserR (fun a b => lb_le a b = true) := ⟨lb_le_total⟩
  have h := List.sorted_insertionSort (fun a b => lb_le a b = true) db.users
  exact h.imp (fun hab => (lb_le_iff _ _).mp hab)

theorem mem_id_upsert (fs : List Challenge) (name flagStr : String) (pts : Int)
    (link m : String)
    (hm : m ∈ (upsert_challenge fs name flagStr pts link).map (fun c => c.id)) :
    m ∈ fs.map (fun c => c.id) ∨ m = name := by
  induction fs with
  | nil => simpa [upsert_challenge] using hm
  | cons c rest ih =>
    by_cases hc : c.id = name
    · subst hc
      simp only [upsert_challenge, beq_self_eq_true, if_true, List.map_cons,
        List.mem_cons] at hm ⊢
      exact Or.inl hm
    · simp only [upsert_challenge, beq_eq_false_iff_ne.mpr hc, Bool.false_eq_true,
        if_false, List.map_cons, List.mem_cons] at hm ⊢
      rcases hm with h | h
      · exact Or.inl (Or.inl h)
      · rcases ih h with h' | h'
        · exact Or.inl (Or.inr h')
        · exact Or.inr h'

theorem nodup_id_upsert (fs : List Challenge) (name flagStr : String) (pts : Int)
    (link : String) (h : (fs.map (fun c => c.id)).Nodup) :
    ((upsert_challenge fs name flagStr pts link).map (fun c => c.id)).Nodup := by
  induction fs with
  | nil => simp [upsert_challenge]
  | cons c rest ih =>
    simp only [List.map_cons, List.nodup_cons] at h
    by_cases hc : c.id = name
    · subst hc
      simp only [upsert_challenge, beq_self_eq_true, if_true, List.map_cons,
        List.nodup_cons]
      exact h
    · simp only [upsert_challenge, beq_eq_false_iff_ne.mpr hc, Bool.false_eq_true,
        if_false, List.map_cons, List.nodup_cons]
      refine ⟨?_, ih h.2⟩
      intro hmem
      rcases mem_id_upsert rest name flagStr pts link c.id hmem with h' | h'
      · exact h.1 h'
      · exact hc h'

theorem filter_id_eq_nil (fs : List Challenge) (name : String)
    (h : name ∉ fs.map (fun c => c.id)) :
    fs.filter (fun c => c.id == name) = [] := by
  rw [List.filter_eq_nil_iff]
  intro c hc hbeq
  exact h (List.mem_map.mpr ⟨c, hc, (beq_iff_eq.mp hbeq).symm ▸ rfl⟩)

theorem filter_upsert (fs : List Challenge) (name flagStr : String) (pts : Int)
    (link : String) (h : (fs.map (fun c => c.id)).Nodup) :
    (upsert_challenge fs name flagStr pts link).filter (fun c => c.id == name) =
      [⟨name, flagStr, pts, link⟩] := by
  induction fs with
  | nil => simp [upsert_challenge]
  | cons c rest ih =>
    simp only [List.map_cons, List.nodup_cons] at h
    by_cases hc : c.id = name
    · subst hc
      have hfil : rest.filter (fun x => x.id == c.id) = [] :=
        filter_id_eq_nil rest c.id h.1
      obtain ⟨cid, cf, cp, cl⟩ := c
      simp only at hfil ⊢
      simp [upsert_challenge, List.filter_cons, hfil]
    · simp only [upsert_challenge, beq_eq_false_iff_ne.mpr hc, Bool.false_eq_true,
        if_false, List.filter_cons, beq_eq_false_iff_ne.mpr hc]
      exact ih h.2

theorem authoring_run_eq (adminU : Option String) (db : DB) (invoker : Option String)
    (ud : UserData) (nameIn ptsIn linkIn flagIn : String) (n : Int)
    (hadm : is_admin adminU db.admins invoker = true)
    (hp : pyInt? (pyStrip ptsIn) = some n) :
    authoring_run adminU db invoker ud nameIn ptsIn linkIn flagIn =
      some { db with flags := (upsert_challenge db.flags (pyStrip nameIn)
        (pyStrip flagIn) n (pyStrip linkIn)) } := by
  unfold authoring_run addflag_start af_name af_points af_link af_flag
  simp [hadm, hp]

/-- Claim C9: completing the authoring flow twice with the same challenge
name and different points/link/flag inputs (starting from a challenge
collection with unique names) leaves exactly one challenge record under that
name, holding the second run's flag, points and link. -/
theorem C9_upsert_latest_wins (adminU : Option String) (db : DB)
    (invoker : Option String) (ud1 ud2 : UserData)
    (nameIn p1 l1 f1 p2 l2 f2 : String) (n1 n2 : Int)
    (hadm : is_admin adminU db.admins invoker = true)
    (hp1 : pyInt? (pyStrip p1) = some n1)
    (hp2 : pyInt? (pyStrip p2) = some n2)
    (hnd : (db.flags.map (fun c => c.id)).Nodup) :
    ∃ db1 db2 : DB,
      authoring_run adminU db invoker ud1 nameIn p1 l1 f1 = some db1 ∧
      authoring_run adminU db1 invoker ud2 nameIn p2 l2 f2 = some db2 ∧
      db2.flags.filter (fun c => c.id == pyStrip nameIn) =
        [⟨pyStrip nameIn, pyStrip f2, n2, pyStrip l2⟩] := by
  refine ⟨_, _, authoring_run_eq adminU db invoker ud1 nameIn p1 l1 f1 n1 hadm hp1,
    authoring_run_eq adminU _ invoker ud2 nameIn p2 l2 f2 n2 hadm hp2, ?_⟩
  exact filter_upsert _ _ _ _ _
    (nodup_id_upsert db.flags (pyStrip nameIn) (pyStrip f1) n1 (pyStrip l1) hnd)

/-- Witness for C9: authoring "web1" first as (100, "L1", "F1") and then as
(200, "L2", "F2") from an empty store leaves exactly the record
("web1", "F2", 200, "L2"). -/
theorem C9_upsert_latest_wins_witness :
    ∃ db1 db2 : DB,
      authoring_run (some "root") ⟨[], [], [], []⟩ (some "root")
          ⟨none, none, none, none⟩ "web1" "100" "L1" "F1" = some db1 ∧
      authoring_run (some "root") db1 (some "root")
          ⟨none, none, none, none⟩ "web1" "200" "L2" "F2" = some db2 ∧
      db2.flags.filter (fun c => c.id == pyStrip "web1") =
        [⟨pyStrip "web1", pyStrip "F2", 200, pyStrip "L2"⟩] :=
  C9_upsert_latest_wins (some "root") ⟨[], [], [], []⟩ (some "root")
    ⟨none, none, none, none⟩ ⟨none, none, none, none⟩
    "web1" "100" "L1" "F1" "200" "L2" "F2" 100 200
    (by decide) (by decide) (by decide) (by simp)

theorem find?_update_one_user (us : List UserR) (tid uid : Nat) (f : UserR → UserR)
    (hf : ∀ v, (f v).id = v.id) :
    (update_one_user us tid f).find? (fun v => v.id == uid) =
      if tid = uid then (us.find? (fun v => v.id == uid)).map f
      else us.find? (fun v => v.id == uid) := by
  induction us with
  | nil => simp [update_one_user]
  | cons u rest ih =>
    by_cases h1 : u.id = tid
    · subst h1
      by_cases h2 : u.id = uid
      · subst h2
        simp [update_one_user, List.find?_cons, hf]
      · have hpf : ((f u).id == uid) = false := by
          rw [hf]; exact beq_eq_false_iff_ne.mpr h2
        simp [update_one_user, List.find?_cons, hpf,
          beq_eq_false_iff_ne.mpr h2, h2]
    · have hb1 : (u.id == tid) = false := beq_eq_false_iff_ne.mpr h1
      by_cases h3 : u.id = uid
      · have h2 : tid ≠ uid := fun he => h1 (h3.trans he.symm)
        simp [update_one_user, hb1, List.find?_cons, beq_iff_eq.mpr h3, h2]
      · have hb3 : (u.id == uid) = false := beq_eq_false_iff_ne.mpr h3
        simp [update_one_user, hb1, List.find?_cons, hb3, ih]

theorem find?_foldl_dec (subs : List Submission) (us : List UserR) (pts : Int)
    (uid : Nat) :
    ((subs.foldl (fun acc s => update_one_user acc s.user_id
        (fun v => { v with points := v.points - pts })) us).find?
      (fun v => v.id == uid)) =
    (us.find? (fun v => v.id == uid)).map
      (fun v => { v with points := v.points -
        pts * (subs.countP (fun s => s.user_id == uid) : Int) }) := by
  induction subs generalizing us with
  | nil =>
    simp only [List.foldl_nil, List.countP_nil, Nat.cast_zero, mul_zero, sub_zero]
    cases hf : us.find? (fun v => v.id == uid) <;> simp
  | cons s rest ih =>
    rw [List.foldl_cons, ih,
      find?_update_one_user us s.user_id uid
        (fun v => { v with points := v.points - pts }) (fun v => rfl),
      List.countP_cons]
    by_cases h : s.user_id = uid
    · rw [if_pos h]
      have hb : (s.user_id == uid) = true := beq_iff_eq.mpr h
      rw [hb, if_pos rfl]
      cases hfind : us.find? (fun v => v.id == uid) with
      | none => simp
      | some v =>
        obtain ⟨vid, vu, vp, vt⟩ := v
        simp only [Option.map_some']
        congr 2
        push_cast
        ring
    · rw [if_neg h]
      have hb : (s.user_id == uid) = false := beq_eq_false_iff_ne.mpr h
      rw [hb, if_neg (by simp), Nat.add_zero]

/-- Claim C1 as stated is false at a concrete input: user 1 has TWO correct
submission rows for challenge "c" (worth 5 points) and 10 points total.
Deleting "c" decrements once per correct submission row, so the user's
points drop from 10 to 0, not to 10 − 5 = 5 as the once-per-user reading
requires. -/
theorem C1_per_user_counterexample :
    ((delete_challenge (some "root")
        ⟨[⟨1, some "u", 10, some 0⟩], [⟨"c", "f", 5, ""⟩],
         [⟨1, some "c", "f", true, 1⟩, ⟨1, some "c", "f", true, 2⟩], []⟩
        (some "root") ["c"]).1.users.find? (fun v => v.id == 1)).map
      (fun v => v.points) = some 0 ∧ ((10 : Int) - 5) ≠ 0 := by decide

/-- Claim C1 (amended): after an admin deletes an existing challenge C, no
submission row referencing C remains, C is removed from the challenge
collection, the admin collection is unchanged, and every user's point total
is reduced by C's point value ONCE PER CORRECT SUBMISSION ROW that user had
for C (a user with k correct rows loses k·P; with exactly one correct row
this is the claimed exactly-P reduction). -/
theorem C1_delete_cascade (adminU invoker : Option String) (db : DB)
    (args : List String) (doc : Challenge) (uid : Nat) (u : UserR)
    (hadm : is_admin adminU db.admins invoker = true)
    (hargs : args.isEmpty = false)
    (hfind : db.flags.find? (fun c => c.id == pyStrip (pyJoin " " args)) = some doc)
    (huser : db.users.find? (fun v => v.id == uid) = some u) :
    (delete_challenge adminU db invoker args).1.flags =
      db.flags.filter (fun c => !(c.id == pyStrip (pyJoin " " args))) ∧
    (delete_challenge adminU db invoker args).1.submissions =
      db.submissions.filter
        (fun s => !(s.challenge == some (pyStrip (pyJoin " " args)))) ∧
    (delete_challenge adminU db invoker args).1.admins = db.admins ∧
    (delete_challenge adminU db invoker args).1.users.find? (fun v => v.id == uid) =
      some { u with points := u.points - doc.points *
        (((db.submissions.filter
            (fun s => s.challenge == some (pyStrip (pyJoin " " args)) && s.correct)).countP
          (fun s => s.user_id == uid) : Nat) : Int) } := by
  unfold delete_challenge
  simp only [hadm, Bool.not_true, Bool.false_eq_true, if_false, hargs, hfind]
  refine ⟨trivial, trivial, trivial, ?_⟩
  rw [find?_foldl_dec, huser]
  rfl

/-- Witness for C1: the admin deletes challenge "c" (5 points); user 1 had
one correct row, so their total drops from 10 to 10 − 5·1 = 5, all rows for
"c" disappear, and "c" leaves the challenge collection. -/
theorem C1_delete_cascade_witness :
    (delete_challenge (some "root")
        ⟨[⟨1, some "u", 10, some 2⟩], [⟨"c", "f", 5, ""⟩],
         [⟨1, some "c", "f", true, 2⟩, ⟨1, some "c", "x", false, 1⟩], []⟩
        (some "root") ["c"]).1.flags =
      ([⟨"c", "f", 5, ""⟩] : List Challenge).filter
        (fun c => !(c.id == pyStrip (pyJoin " " ["c"]))) ∧
    (delete_challenge (some "root")
        ⟨[⟨1, some "u", 10, some 2⟩], [⟨"c", "f", 5, ""⟩],
         [⟨1, some "c", "f", true, 2⟩, ⟨1, some "c", "x", false, 1⟩], []⟩
        (some "root") ["c"]).1.submissions =
      ([⟨1, some "c", "f", true, 2⟩, ⟨1, some "c", "x", false, 1⟩] :
          List Submission).filter
        (fun s => !(s.challenge == some (pyStrip (pyJoin " " ["c"])))) ∧
    (delete_challenge (some "root")
        ⟨[⟨1, some "u", 10, some 2⟩], [⟨"c", "f", 5, ""⟩],
         [⟨1, some "c", "f", true, 2⟩, ⟨1, some "c", "x", false, 1⟩], []⟩
        (some "root") ["c"]).1.admins = ([] : List String) ∧
    (delete_challenge (some "root")
        ⟨[⟨1, some "u", 10, some 2⟩], [⟨"c", "f", 5, ""⟩],
         [⟨1, some "c", "f", true, 2⟩, ⟨1, some "c", "x", false, 1⟩], []⟩
        (some "root") ["c"]).1.users.find? (fun v => v.id == 1) =
      some { (⟨1, some "u", 10, some 2⟩ : UserR) with
        points := (10 : Int) - (5 : Int) *
          (((([⟨1, some "c", "f", true, 2⟩, ⟨1, some "c", "x", false, 1⟩] :
              List Submission).filter
              (fun s => s.challenge == some (pyStrip (pyJoin " " ["c"])) && s.correct)).countP
            (fun s => s.user_id == 1) : Nat) : Int) } :=
  C1_delete_cascade (some "root") (some "root")
    ⟨[⟨1, some "u", 10, some 2⟩], [⟨"c", "f", 5, ""⟩],
     [⟨1, some "c", "f", true, 2⟩, ⟨1, some "c", "x", false, 1⟩], []⟩
    ["c"] ⟨"c", "f", 5, ""⟩ 1 ⟨1, some "u", 10, some 2⟩
    (by decide) (by decide) (by decide) (by decide)

end CTFBot
